import Mathlib

/-!
Verification development for the stash library-scan pipeline and SQL
filter/query engine.  The Lean definitions below are shallow embeddings of
the Go source: the filter builder and query helpers (`pkg/sqlite`), and the
scan/reconciliation task (`pkg/manager/task_scan.go`).  Machine values are
modelled with `Int`/`Nat`/`String`; Go `error` values are modelled as
`Option String`; external collaborators (the catalog store, the filesystem,
ffmpeg probing, Go stdlib regexp compilation) are modelled as explicit
environment fields or function parameters supplied to the embedded code.
-/

/-- Model of a Go `interface\x7b\x7d` positional SQL argument: the code binds
integers (association ids) and strings (criterion values). -/
inductive Arg where
  | i (n : Int) : Arg
  | s (v : String) : Arg
deriving DecidableEq, Repr

/-- Go `sqlClause` from the filter builder: a SQL fragment plus its positional
arguments. -/
structure sqlClause where
  sql : String
  args : List Arg
deriving DecidableEq, Repr

/-- Go `makeClause` from the filter builder. -/
def makeClause (sql : String) (args : List Arg) : sqlClause :=
  { sql := sql, args := args }

/-- Go `join` from the filter builder: `LEFT JOIN table [AS as] ON onClause`. -/
structure join where
  table : String
  as : String
  onClause : String
deriving DecidableEq, Repr

/-- Go `join.alias`: the `as` string, or the table if `as` is empty. -/
def join.alias (j : join) : String :=
  if j.as = "" then j.table else j.as

/-- Go `join.equals`: true if the other join alias/table equals this one. -/
def join.equals (j o : join) : Bool :=
  j.alias == o.alias

/-- Go `join.toSQL`. -/
def join.toSQL (j : join) : String :=
  let asStr := if j.as ≠ "" ∧ j.as ≠ j.table then " AS " ++ j.as else ""
  "LEFT JOIN " ++ j.table ++ asStr ++ " ON " ++ j.onClause

/-- Go `joins.add` from the filter builder, embedded as a pure function on the
receiver list.  The Go loop appends each new join unless its alias is already
present, but a `return` statement exits the whole method at the first
duplicate found, keeping the appends made so far and dropping the rest of the
slice. -/
def joinsAdd (j : List join) : List join → List join
  | [] => j
  | n :: rest =>
    if j.any (fun jj => jj.equals n) then j
    else joinsAdd (j ++ [n]) rest

/-- Go `joins.toSQL`. -/
def joinsToSQL (j : List join) : String :=
  String.intercalate (" ") (j.map join.toSQL)

/-- The `errSubFilterAlreadySet` error value. -/
def errSubFilterAlreadySet : String := "sub-filter already set"

/-- Sub-filter operator `andOp`. -/
def andOp : String := "AND"

/-- Sub-filter operator `orOp`. -/
def orOp : String := "OR"

/-- Sub-filter operator `notOp`. -/
def notOp : String := "AND NOT"

/-- Go `filterBuilder`: a filter tree node.  A node owns where/having clauses
and joins, at most one sub-filter with its combining operator, and a
deferred error slot.  Recursive through the optional sub-filter, so it is an
inductive type rather than a structure. -/
inductive filterBuilder where
  | mk (subFilter : Option filterBuilder) (subFilterOp : String)
       (joins : List join) (whereClauses : List sqlClause)
       (havingClauses : List sqlClause) (err : Option String) : filterBuilder

namespace filterBuilder

/-- Field accessor for `subFilter`. -/
def subFilter : filterBuilder → Option filterBuilder
  | .mk s _ _ _ _ _ => s

/-- Field accessor for `subFilterOp`. -/
def subFilterOp : filterBuilder → String
  | .mk _ o _ _ _ _ => o

/-- Field accessor for `joins`. -/
def joins : filterBuilder → List join
  | .mk _ _ j _ _ _ => j

/-- Field accessor for `whereClauses`. -/
def whereClauses : filterBuilder → List sqlClause
  | .mk _ _ _ w _ _ => w

/-- Field accessor for `havingClauses`. -/
def havingClauses : filterBuilder → List sqlClause
  | .mk _ _ _ _ h _ => h

/-- Field accessor for `err`. -/
def err : filterBuilder → Option String
  | .mk _ _ _ _ _ e => e

/-- A fresh filter node: all fields zero-valued, as in Go. -/
def empty : filterBuilder := .mk none ("") [] [] [] none

/-- Go `filterBuilder.setError`: records the error only if none is recorded
yet (first error wins). -/
def setError (f : filterBuilder) (e : String) : filterBuilder :=
  match f with
  | .mk s o j w h old => .mk s o j w h (if old = none then some e else old)

/-- Go `filterBuilder.and`: sets the sub-filter to be ANDed; sets the error
state if a sub-filter is already set, leaving the attachment unchanged. -/
def and (f a : filterBuilder) : filterBuilder :=
  match f with
  | .mk (some s) o j w h e => (filterBuilder.mk (some s) o j w h e).setError errSubFilterAlreadySet
  | .mk none _ j w h e => .mk (some a) andOp j w h e

/-- Go `filterBuilder.or`: sets the sub-filter to be ORed; sets the error
state if a sub-filter is already set, leaving the attachment unchanged. -/
def or (f o2 : filterBuilder) : filterBuilder :=
  match f with
  | .mk (some s) o j w h e => (filterBuilder.mk (some s) o j w h e).setError errSubFilterAlreadySet
  | .mk none _ j w h e => .mk (some o2) orOp j w h e

/-- Go `filterBuilder.not`: sets the sub-filter to be AND NOTed; sets the
error state if a sub-filter is already set, leaving the attachment
unchanged. -/
def not (f n : filterBuilder) : filterBuilder :=
  match f with
  | .mk (some s) o j w h e => (filterBuilder.mk (some s) o j w h e).setError errSubFilterAlreadySet
  | .mk none _ j w h e => .mk (some n) notOp j w h e

/-- Go `filterBuilder.addJoin`. -/
def addJoin (f : filterBuilder) (table as onClause : String) : filterBuilder :=
  match f with
  | .mk s o j w h e => .mk s o (joinsAdd j [⟨table, as, onClause⟩]) w h e

/-- Go `filterBuilder.addWhere`: appends an AND-joined where clause; does
nothing when the SQL text is empty. -/
def addWhere (f : filterBuilder) (sql : String) (args : List Arg) : filterBuilder :=
  if sql = "" then f
  else match f with
  | .mk s o j w h e => .mk s o j (w ++ [makeClause sql args]) h e

/-- Go `filterBuilder.addHaving`: appends an AND-joined having clause; does
nothing when the SQL text is empty. -/
def addHaving (f : filterBuilder) (sql : String) (args : List Arg) : filterBuilder :=
  if sql = "" then f
  else match f with
  | .mk s o j w h e => .mk s o j w (h ++ [makeClause sql args]) e

/-- Go `filterBuilder.getError`: the error of this node, or the first error found
in the sub-filter chain. -/
def getError : filterBuilder → Option String
  | .mk s _ _ _ _ e =>
    if e ≠ none then e
    else match s with
    | some sub => sub.getError
    | none => none

end filterBuilder

/-- Go `filterBuilder.andClauses`: AND-joins and parenthesizes a clause list,
concatenating the argument lists in clause order; yields the empty clause for
an empty list. -/
def andClauses (input : List sqlClause) : String × List Arg :=
  let clauses := input.map (fun w => w.sql)
  let args := (input.map (fun w => w.args)).flatten
  if clauses ≠ [] then ("(" ++ String.intercalate (" AND ") clauses ++ ")", args)
  else ("", [])

/-- Go `filterBuilder.getSubFilterClause` (the method reads `f.subFilterOp`,
passed here explicitly): combines the clause of this node with the sub-filter
clause, prefixing the operator only when a left-hand clause exists, and
special-casing a leading `AND NOT` down to `NOT `. -/
def getSubFilterClause (subFilterOp clause subFilterClause : String) : String :=
  if subFilterClause ≠ "" then
    let op :=
      if clause.length > 0 then " " ++ subFilterOp ++ " "
      else if subFilterOp = notOp then "NOT " else ""
    clause ++ op ++ subFilterClause
  else clause

/-- Go `filterBuilder.generateWhereClauses`: the own where clauses of the node,
AND-joined and parenthesized, combined with the compiled sub-filter clause
via `getSubFilterClause`; sub-filter arguments are appended after the own
ones. -/
def filterBuilder.generateWhereClauses : filterBuilder → String × List Arg
  | .mk sub o _ w _ _ =>
    let start := andClauses w
    match sub with
    | none => start
    | some s =>
      let rec1 := s.generateWhereClauses
      if rec1.1 ≠ "" then
        (getSubFilterClause o start.1 rec1.1,
         if rec1.2.length > 0 then start.2 ++ rec1.2 else start.2)
      else start

/-- Go `filterBuilder.generateHavingClauses`: the own having clauses of the node,
AND-joined and parenthesized; the compiled sub-filter clause is appended
with the operator written unconditionally between the two parts. -/
def filterBuilder.generateHavingClauses : filterBuilder → String × List Arg
  | .mk sub o _ _ h _ =>
    let start := andClauses h
    match sub with
    | none => start
    | some s =>
      let rec1 := s.generateHavingClauses
      if rec1.1 ≠ "" then
        (start.1 ++ (" ") ++ o ++ (" ") ++ rec1.1,
         if rec1.2.length > 0 then start.2 ++ rec1.2 else start.2)
      else start

/-- Go `filterBuilder.getAllJoins`: all joins of this node and its sub-filter
chain, accumulated through `joins.add`. -/
def filterBuilder.getAllJoins : filterBuilder → List join
  | .mk sub _ j _ _ _ =>
    let ret := joinsAdd [] j
    match sub with
    | none => ret
    | some s =>
      let subJoins := s.getAllJoins
      if subJoins ≠ [] then joinsAdd ret subJoins else ret

/-- Result of `queryBuilder.executeFind`: either the deferred error is
returned with no SQL run, or the count and ids queries are issued with the
accumulated positional arguments. -/
inductive findResult where
  | failure (e : String)
  | ranSQL (countQuery idsQuery : String) (args : List Arg)
deriving DecidableEq, Repr

/-- Go `repository.buildCountQuery`. -/
def buildCountQuery (query : String) : String :=
  "SELECT COUNT(*) as count FROM (" ++ query ++ ") as temp"

/-- Go `repository.executeFindQuery`: assembles the WHERE / GROUP BY / HAVING
text and issues the count and ids queries (query execution itself is the
external store; the assembled statements are returned). -/
def executeFindQuery (tableName body : String) (args : List Arg)
    (sortAndPagination : String) (whereClauses havingClauses : List String) : findResult :=
  let body1 :=
    if whereClauses.length > 0 then
      body ++ " WHERE " ++ String.intercalate (" AND ") whereClauses
    else body
  let body2 := body1 ++ " GROUP BY " ++ tableName ++ ".id "
  let body3 :=
    if havingClauses.length > 0 then
      body2 ++ " HAVING " ++ String.intercalate (" AND ") havingClauses
    else body2
  .ranSQL (buildCountQuery body3) (body3 ++ sortAndPagination) args

/-- Go `queryBuilder` from `pkg/sqlite/query.go`; `tableName` stands in for the
table name of the embedded repository. -/
structure queryBuilder where
  tableName : String
  body : String
  joins : List join
  whereClauses : List String
  havingClauses : List String
  args : List Arg
  sortAndPagination : String
  err : Option String

/-- A fresh query builder over a repository (`repository.newQuery`). -/
def newQuery (tableName : String) : queryBuilder :=
  { tableName := tableName, body := "", joins := [], whereClauses := [],
    havingClauses := [], args := [], sortAndPagination := "", err := none }

/-- Go `queryBuilder.executeFind`: returns the accumulated error, running no
SQL, when one is set; otherwise appends the join SQL to the body and runs
the find query. -/
def queryBuilder.executeFind (qb : queryBuilder) : findResult :=
  match qb.err with
  | some e => .failure e
  | none =>
    let body := qb.body ++ joinsToSQL qb.joins
    executeFindQuery qb.tableName body qb.args qb.sortAndPagination
      qb.whereClauses qb.havingClauses

/-- Go `queryBuilder.addWhere`: appends each non-empty clause. -/
def queryBuilder.addWhere (qb : queryBuilder) (clauses : List String) : queryBuilder :=
  { qb with whereClauses := qb.whereClauses ++ clauses.filter (fun c => c.length > 0) }

/-- Go `queryBuilder.addHaving`: appends each non-empty clause. -/
def queryBuilder.addHaving (qb : queryBuilder) (clauses : List String) : queryBuilder :=
  { qb with havingClauses := qb.havingClauses ++ clauses.filter (fun c => c.length > 0) }

/-- Go `queryBuilder.addArg`. -/
def queryBuilder.addArg (qb : queryBuilder) (args : List Arg) : queryBuilder :=
  { qb with args := qb.args ++ args }

/-- Go `queryBuilder.addFilter`: a filter with a recorded error poisons the
query builder (surfaced at `executeFind`); otherwise its compiled where and
having clauses, their arguments, and its deduplicated joins are added. -/
def queryBuilder.addFilter (qb : queryBuilder) (f : filterBuilder) : queryBuilder :=
  match f.getError with
  | some e => { qb with err := some e }
  | none =>
    let wc := f.generateWhereClauses
    let qb1 := if wc.1.length > 0 then qb.addWhere [wc.1] else qb
    let qb2 := if wc.2.length > 0 then qb1.addArg wc.2 else qb1
    let hc := f.generateHavingClauses
    let qb3 := if hc.1.length > 0 then qb2.addHaving [hc.1] else qb2
    let qb4 := if hc.2.length > 0 then qb3.addArg hc.2 else qb3
    { qb4 with joins := joinsAdd qb4.joins f.getAllJoins }

/-- Go `models.CriterionModifier` (GraphQL enum). -/
inductive CriterionModifier where
  | Equals | NotEquals | GreaterThan | LessThan | IsNull | NotNull
  | Includes | IncludesAll | Excludes | MatchesRegex | NotMatchesRegex
deriving DecidableEq, Repr

/-- Go `CriterionModifier.IsValid`: every constructor of the enum is valid. -/
def CriterionModifier.isValid (_ : CriterionModifier) : Bool := true

/-- Go `models.StringCriterionInput`. -/
structure StringCriterionInput where
  value : String
  modifier : CriterionModifier
deriving DecidableEq, Repr

/-- Go `models.MultiCriterionInput`: a list of association ids plus a
modifier. -/
structure MultiCriterionInput where
  value : List String
  modifier : CriterionModifier
deriving DecidableEq, Repr

/-- Go `strings.TrimRight(s, ", ")`: removes trailing commas and spaces. -/
def trimRightCommaSpace (s : String) : String :=
  String.mk ((s.toList.reverse.dropWhile (fun c => c = ',' ∨ c = ' ')).reverse)

/-- Go `strings.Trim(s, cutset)` for a single-character cutset. -/
def trimChar (s : String) (c : Char) : String :=
  String.mk (((s.toList.dropWhile (fun x => x = c)).reverse.dropWhile (fun x => x = c)).reverse)

/-- Go `getInBinding`: `(?, ?, ..., ?)` with `length` placeholders. -/
def getInBinding (length : Nat) : String :=
  "(" ++ trimRightCommaSpace (String.join (List.replicate length ("?, "))) ++ ")"

/-- Go `getSimpleCriterionClause`: comparison operator text plus the number of
positional arguments it consumes. -/
def getSimpleCriterionClause (criterionModifier : CriterionModifier) (rhs : String) : String × Nat :=
  if criterionModifier.isValid then
    match criterionModifier with
    | .Equals => ("= " ++ rhs, 1)
    | .NotEquals => ("!= " ++ rhs, 1)
    | .GreaterThan => ("> " ++ rhs, 1)
    | .LessThan => ("< " ++ rhs, 1)
    | .IsNull => ("IS NULL", 0)
    | .NotNull => ("IS NOT NULL", 0)
    | _ => ("= ?", 1)
  else ("= ?", 1)

/-- Go `getSearchBinding`: word-split (or quoted-phrase) LIKE search over the
given columns; clause text and argument list are built in lockstep. -/
def getSearchBinding (columns : List String) (q : String) (negated : Bool) : String × List Arg :=
  let notStr := if negated then " NOT" else ""
  let binaryType := if negated then " AND " else " OR "
  let queryWords := q.splitOn (" ")
  let trimmedQuery := trimChar q (Char.ofNat 34)
  let pairs :=
    if trimmedQuery = q then
      (queryWords.map (fun word =>
        columns.map (fun column =>
          (column ++ notStr ++ " LIKE ?", Arg.s ("%" ++ word ++ "%"))))).flatten
    else
      columns.map (fun column =>
        (column ++ notStr ++ " LIKE ?", Arg.s ("%" ++ trimmedQuery ++ "%")))
  let likes := String.intercalate binaryType (pairs.map Prod.fst)
  ("(" ++ likes ++ ")", pairs.map Prod.snd)

/-- Go `stringCriterionHandler` from the filter builder.  Go stdlib
`regexp.Compile` is an external collaborator, modelled by the
`regexpCompile` parameter: `some e` is a compile error, `none` success. -/
def stringCriterionHandler (regexpCompile : String → Option String)
    (c : Option StringCriterionInput) (column : String)
    (f : filterBuilder) : filterBuilder :=
  match c with
  | none => f
  | some c =>
    if c.modifier.isValid then
      match c.modifier with
      | .Includes =>
        let cl := getSearchBinding [column] c.value false
        f.addWhere cl.1 cl.2
      | .Excludes =>
        let cl := getSearchBinding [column] c.value true
        f.addWhere cl.1 cl.2
      | .Equals => f.addWhere (column ++ " LIKE ?") [Arg.s c.value]
      | .NotEquals => f.addWhere (column ++ " NOT LIKE ?") [Arg.s c.value]
      | .MatchesRegex =>
        match regexpCompile c.value with
        | some e => f.setError e
        | none => f.addWhere (column ++ " regexp ?") [Arg.s c.value]
      | .NotMatchesRegex =>
        match regexpCompile c.value with
        | some e => f.setError e
        | none => f.addWhere (column ++ " NOT regexp ?") [Arg.s c.value]
      | m =>
        let sc := getSimpleCriterionClause m ("?")
        if sc.2 = 1 then f.addWhere (column ++ " " ++ sc.1) [Arg.s c.value]
        else f.addWhere (column ++ " " ++ sc.1) []
    else f

/-- Go `getMultiCriterionClause`: where clause and having clause for a
multi-value criterion.  EXCLUDES compiles to a `not exists` correlated
subquery over the join table (or the primary table when there is no join
table). -/
def getMultiCriterionClause (primaryTable foreignTable joinTable primaryFK foreignFK : String)
    (criterion : MultiCriterionInput) : String × String :=
  if criterion.modifier = .Includes then
    (foreignTable ++ ".id IN " ++ getInBinding criterion.value.length, "")
  else if criterion.modifier = .IncludesAll then
    (foreignTable ++ ".id IN " ++ getInBinding criterion.value.length,
     "count(distinct " ++ foreignTable ++ ".id) IS " ++ toString criterion.value.length)
  else if criterion.modifier = .Excludes then
    (if joinTable ≠ "" then
       "not exists (select " ++ joinTable ++ "." ++ primaryFK ++ " from " ++ joinTable ++
         " where " ++ joinTable ++ "." ++ primaryFK ++ " = " ++ primaryTable ++ ".id and " ++
         joinTable ++ "." ++ foreignFK ++ " in " ++ getInBinding criterion.value.length ++ ")"
     else
       "not exists (select s.id from " ++ primaryTable ++ " as s where s.id = " ++
         primaryTable ++ ".id and s." ++ foreignFK ++ " in " ++
         getInBinding criterion.value.length ++ ")", "")
  else ("", "")

/-- Go `multiCriterionHandlerBuilder`: table wiring for a multi-value
criterion handler. -/
structure multiCriterionHandlerBuilder where
  primaryTable : String
  foreignTable : String
  joinTable : String
  primaryFK : String
  foreignFK : String
  addJoinsFunc : Option (filterBuilder → filterBuilder)

/-- Go `multiCriterionHandlerBuilder.handler`: for a non-empty criterion,
performs the joins, then adds the where clause with the ids as arguments and
the having clause with no arguments. -/
def multiCriterionHandlerBuilder.handler (m : multiCriterionHandlerBuilder)
    (criterion : Option MultiCriterionInput) (f : filterBuilder) : filterBuilder :=
  match criterion with
  | none => f
  | some c =>
    if c.value.length > 0 then
      let args := c.value.map Arg.s
      let f1 := match m.addJoinsFunc with
        | some g => g f
        | none => f
      let cls := getMultiCriterionClause m.primaryTable m.foreignTable m.joinTable
        m.primaryFK m.foreignFK c
      (f1.addWhere cls.1 args).addHaving cls.2 []
    else f

/-- Go `sql.NullString`. -/
structure NullString where
  string : String
  valid : Bool
deriving DecidableEq, Repr

/-- Go `models.NullSQLiteTimestamp`: a timestamp (seconds precision, modelled
as `Int`) plus a validity flag. -/
structure NullSQLiteTimestamp where
  timestamp : Int
  valid : Bool
deriving DecidableEq, Repr

/-- Go `ScanTask.isFileModified`: true when the stored timestamp differs from
the on-disk one (the validity flag is not consulted). -/
def isFileModified (fileModTime : Int) (modTime : NullSQLiteTimestamp) : Bool :=
  modTime.timestamp ≠ fileModTime

/-- Go `models.HashAlgorithm`. -/
inductive HashAlgorithm where
  | md5
  | oshash
deriving DecidableEq, Repr

/-- Go `models.Gallery`, restricted to the fields the scan reads. -/
structure GalleryRec where
  id : Int
  path : NullString
  checksum : String
  zip : Bool
  fileModTime : NullSQLiteTimestamp
deriving DecidableEq, Repr

/-- One write transaction opened by `scanGallery`; each constructor mirrors
one `WithTxn` block and the columns its statement sets. -/
inductive GalleryWrite where
  | updateFileModTime (id : Int) (t : Int)
  | updateChecksumModTime (id : Int) (checksum : String) (t : Int)
  | updatePath (id : Int) (path : String)
  | create (checksum path : String) (t : Int)
deriving DecidableEq, Repr

/-- Terminal behaviour of one `scanGallery` pass. -/
inductive GalleryOutcome where
  | errorOut
  | scannedZip
  | regeneratedThumbs
  | skipped
deriving DecidableEq, Repr

/-- Environment for one `scanGallery` call: results of the store lookups,
the filesystem, and the hashing collaborator.  Store writes are modelled as
succeeding. -/
structure GalleryScanEnv where
  filePath : String
  findByPath : Option GalleryRec
  findByPathErr : Option String
  imageCountByGalleryID : Nat
  imageCountErr : Option String
  diskModTime : Option Int
  isDirectory : Bool
  zipChecksum : Option String
  findByChecksum : Option GalleryRec
  fileExistsAtFound : Bool
  imagesInZip : Nat

/-- Go `ScanTask.scanGallery`.  The initial read transaction issues the
image-count query only when a record was found AND the path lookup returned
a non-nil error (the condition written at task_scan.go line 104), so on the
normal success path `images` keeps its zero value.  Returns the write
transactions opened and how the pass ended. -/
def scanGallery (env : GalleryScanEnv) : List GalleryWrite × GalleryOutcome :=
  let g0 := env.findByPath
  let images : Nat :=
    if g0.isSome ∧ env.findByPathErr ≠ none then env.imageCountByGalleryID else 0
  let txnErr : Option String :=
    if g0.isSome ∧ env.findByPathErr ≠ none then
      match env.imageCountErr with
      | some e => some ("error getting images for zip gallery: " ++ e)
      | none => none
    else env.findByPathErr
  if txnErr ≠ none then ([], .errorOut)
  else match env.diskModTime with
  | none => ([], .errorOut)
  | some fileModTime =>
    match g0 with
    | some g =>
      let st1 : List GalleryWrite × GalleryRec × Bool :=
        if ¬ g.fileModTime.valid then
          ([GalleryWrite.updateFileModTime g.id fileModTime],
           { g with fileModTime := ⟨fileModTime, true⟩ }, true)
        else ([], g, false)
      match st1 with
      | (w1, g1, scan1) =>
        let modified := isFileModified fileModTime g1.fileModTime
        if modified then
          match env.zipChecksum with
          | none => (w1, .errorOut)
          | some checksum =>
            (w1 ++ [GalleryWrite.updateChecksumModTime g1.id checksum fileModTime],
             .scannedZip)
        else if scan1 ∨ images = 0 then (w1, .scannedZip)
        else (w1, .regeneratedThumbs)
    | none =>
      if env.isDirectory then ([], .skipped)
      else match env.zipChecksum with
      | none => ([], .errorOut)
      | some checksum =>
        match env.findByChecksum with
        | some g2 =>
          if env.fileExistsAtFound then ([], .regeneratedThumbs)
          else ([GalleryWrite.updatePath g2.id env.filePath], .regeneratedThumbs)
        | none =>
          if env.imagesInZip > 0 then
            ([GalleryWrite.create checksum env.filePath fileModTime], .scannedZip)
          else ([], .skipped)

/-- Go `models.Scene`, restricted to the fields the scan reads. -/
structure SceneRec where
  id : Int
  path : String
  checksum : NullString
  oshash : NullString
  format : NullString
  size : NullString
  fileModTime : NullSQLiteTimestamp
deriving DecidableEq, Repr

/-- One write transaction opened by `scanScene`; each constructor mirrors
one `WithTxn` block and the columns its statement sets.  `fullRescan` is the
update issued by `rescanScene` (hashes, probed metadata, mod time);
`updatePath` is the update issued for a hash match at a vanished path and
carries only the id and the new path. -/
inductive SceneWrite where
  | updateFileModTime (id : Int) (t : Int)
  | fullRescan (id : Int) (oshash : String) (checksum : Option String) (t : Int)
  | updateFormat (id : Int) (container : String)
  | updateOSHash (id : Int) (h : String)
  | updateChecksum (id : Int) (h : String)
  | updatePath (id : Int) (path : String)
  | create (path oshash checksum : String) (t : Int)
deriving DecidableEq, Repr

/-- Terminal behaviour of one scene or image scan pass. -/
inductive ScanOutcome where
  | errorOut
  | completed (createdNew : Bool)
deriving DecidableEq, Repr

/-- Environment for one `scanScene` call: store lookups, filesystem and
hashing/probing collaborators, and the relevant configuration flags.  The
`findByChecksum` / `findByOSHash` fields are the catalog lookups at the
hashes computed for this file.  Store writes are modelled as succeeding. -/
structure SceneScanEnv where
  filePath : String
  findByPath : Option SceneRec
  findByPathErr : Option String
  diskModTime : Option Int
  calculateMD5 : Bool
  fileNamingAlgorithm : HashAlgorithm
  oshashResult : Option String
  checksumResult : Option String
  probeOk : Bool
  container : String
  videoSize : Int
  isDirectory : Bool
  findByChecksum : Option SceneRec
  findByOSHash : Option SceneRec
  fileExistsAtFound : Bool

/-- The existing-record arm of `scanScene` (task_scan.go lines 364-471):
mod-time backfill, conditional full rescan, then opportunistic backfill of
container/format, oshash and MD5, each guarded by a duplicate check. -/
def scanSceneExisting (env : SceneScanEnv) (s : SceneRec) (fileModTime : Int) :
    List SceneWrite × ScanOutcome :=
  let st1 : List SceneWrite × SceneRec :=
    if ¬ s.fileModTime.valid then
      ([SceneWrite.updateFileModTime s.id fileModTime],
       { s with fileModTime := ⟨fileModTime, true⟩ })
    else ([], s)
  match st1 with
  | (w1, s1) =>
    let modified := isFileModified fileModTime s1.fileModTime
    let st2 : Option (List SceneWrite × SceneRec) :=
      if modified ∨ ¬ s1.size.valid then
        match env.oshashResult with
        | none => none
        | some oshash =>
          if env.calculateMD5 ∧ env.checksumResult = none then none
          else if ¬ env.probeOk then none
          else
            let cs := if env.calculateMD5 then env.checksumResult else none
            some (w1 ++ [SceneWrite.fullRescan s1.id oshash cs fileModTime],
              { s1 with
                oshash := ⟨oshash, true⟩
                checksum := match cs with
                  | some c => ⟨c, true⟩
                  | none => s1.checksum
                format := ⟨env.container, true⟩
                size := ⟨toString env.videoSize, true⟩
                fileModTime := ⟨fileModTime, true⟩ })
      else some (w1, s1)
    match st2 with
    | none => (w1, .errorOut)
    | some (w2, s2) =>
      let st3 : Option (List SceneWrite) :=
        if ¬ s2.format.valid then
          if ¬ env.probeOk then none
          else some (w2 ++ [SceneWrite.updateFormat s2.id env.container])
        else some w2
      match st3 with
      | none => (w2, .errorOut)
      | some w3 =>
        let st4 : Option (List SceneWrite × Bool) :=
          if ¬ s2.oshash.valid then
            match env.oshashResult with
            | none => some (w3, true)
            | some oshash =>
              match env.findByOSHash with
              | some _ => none
              | none => some (w3 ++ [SceneWrite.updateOSHash s2.id oshash], false)
          else some (w3, false)
        match st4 with
        | none => (w3, .errorOut)
        | some (w4, stopped) =>
          if stopped then (w4, .completed false)
          else
            let st5 : Option (List SceneWrite) :=
              if env.calculateMD5 ∧ ¬ s2.checksum.valid then
                match env.checksumResult with
                | none => none
                | some checksum =>
                  match env.findByChecksum with
                  | some _ => none
                  | none => some (w4 ++ [SceneWrite.updateChecksum s2.id checksum])
              else some w4
            match st5 with
            | none => (w4, .errorOut)
            | some w5 => (w5, .completed false)

/-- The catalog search by hash in the new-file arm (task_scan.go lines 505-518):
by checksum when one was computed, falling back to the cheap hash. -/
def sceneHashLookup (env : SceneScanEnv) (checksum : String) : Option SceneRec :=
  if checksum ≠ "" then
    match env.findByChecksum with
    | some x => some x
    | none => env.findByOSHash
  else env.findByOSHash

/-- Go `ScanTask.scanScene`: the path lookup, then either the existing-record
arm or the new-file arm (probe, hash, hash-match reconciliation, create). -/
def scanScene (env : SceneScanEnv) : List SceneWrite × ScanOutcome :=
  if env.findByPathErr ≠ none then ([], .errorOut)
  else match env.diskModTime with
  | none => ([], .errorOut)
  | some fileModTime =>
    match env.findByPath with
    | some s => scanSceneExisting env s fileModTime
    | none =>
      if env.isDirectory then ([], .completed false)
      else if ¬ env.probeOk then ([], .errorOut)
      else match env.oshashResult with
      | none => ([], .errorOut)
      | some oshash =>
        let csStep : Option String :=
          if env.fileNamingAlgorithm = .md5 ∨ env.calculateMD5 then
            env.checksumResult
          else some ("")
        match csStep with
        | none => ([], .errorOut)
        | some checksum =>
          match sceneHashLookup env checksum with
          | some m =>
            if env.fileExistsAtFound then ([], .completed false)
            else ([SceneWrite.updatePath m.id env.filePath], .completed false)
          | none =>
            ([SceneWrite.create env.filePath oshash checksum fileModTime],
             .completed true)

/-- Go `models.Image`, restricted to the fields the scan reads. -/
structure ImageRec where
  id : Int
  path : String
  checksum : String
  fileModTime : NullSQLiteTimestamp
deriving DecidableEq, Repr

/-- One write transaction statement issued by `scanImage`; `fullRescan` is
the update issued by `rescanImage` (checksum, dimensions, size, mod time);
`updatePath` carries only the id and the new path; `addToGallery` and
`createFolderGallery` are the gallery-association writes of the new-file
arm. -/
inductive ImageWrite where
  | updateFileModTime (id : Int) (t : Int)
  | fullRescan (id : Int) (checksum : String) (t : Int)
  | updatePath (id : Int) (path : String)
  | create (path checksum : String) (t : Int)
  | addToGallery (galleryID imageID : Int)
  | createFolderGallery (path : String)
deriving DecidableEq, Repr

/-- Environment for one `scanImage` call: store lookups, filesystem and
hashing collaborators, configuration, and the zip-gallery context the task
was spawned with.  Store writes are modelled as succeeding; ids assigned by
the store on create are supplied by the environment. -/
structure ImageScanEnv where
  filePath : String
  findByPath : Option ImageRec
  findByPathErr : Option String
  diskModTime : Option Int
  checksumResult : Option String
  fileDetailsOk : Bool
  isDirectory : Bool
  findByChecksum : Option ImageRec
  fileExistsAtFound : Bool
  zipGalleryID : Option Int
  createGalleriesFromFolders : Bool
  folderGalleryID : Option Int
  createdImageID : Int
  createdFolderGalleryID : Int
  dirPath : String

/-- Go `ScanTask.scanImage`: the path lookup, then either the existing-record
arm (mod-time backfill, conditional rescan) or the new-file arm (checksum
lookup, duplicate / path-migration / create, then zip- or folder-gallery
association). -/
def scanImage (env : ImageScanEnv) : List ImageWrite × ScanOutcome :=
  if env.findByPathErr ≠ none then ([], .errorOut)
  else match env.diskModTime with
  | none => ([], .errorOut)
  | some fileModTime =>
    match env.findByPath with
    | some i =>
      let st1 : List ImageWrite × ImageRec :=
        if ¬ i.fileModTime.valid then
          ([ImageWrite.updateFileModTime i.id fileModTime],
           { i with fileModTime := ⟨fileModTime, true⟩ })
        else ([], i)
      match st1 with
      | (w1, i1) =>
        let modified := isFileModified fileModTime i1.fileModTime
        if modified then
          match env.checksumResult with
          | none => (w1, .errorOut)
          | some checksum =>
            if ¬ env.fileDetailsOk then (w1, .errorOut)
            else (w1 ++ [ImageWrite.fullRescan i1.id checksum fileModTime],
                  .completed false)
        else (w1, .completed false)
    | none =>
      if env.isDirectory then ([], .completed false)
      else match env.checksumResult with
      | none => ([], .errorOut)
      | some checksum =>
        let st2 : Option (List ImageWrite × Int × Bool) :=
          match env.findByChecksum with
          | some m =>
            if env.fileExistsAtFound then some ([], m.id, false)
            else some ([ImageWrite.updatePath m.id env.filePath], m.id, false)
          | none =>
            if ¬ env.fileDetailsOk then none
            else some ([ImageWrite.create env.filePath checksum fileModTime],
                       env.createdImageID, true)
        match st2 with
        | none => ([], .errorOut)
        | some (w2, imageID, createdNew) =>
          match env.zipGalleryID with
          | some gid => (w2 ++ [ImageWrite.addToGallery gid imageID], .completed createdNew)
          | none =>
            if env.createGalleriesFromFolders then
              match env.folderGalleryID with
              | some g => (w2 ++ [ImageWrite.addToGallery g imageID], .completed createdNew)
              | none =>
                (w2 ++ [ImageWrite.createFolderGallery env.dirPath,
                        ImageWrite.addToGallery env.createdFolderGalleryID imageID],
                 .completed createdNew)
            else (w2, .completed createdNew)

/-- Sub-filter for the C2 example: one where clause and one having clause
of its own. -/
def exC2sub : filterBuilder :=
  .mk none ("") [] [makeClause ("a = ?") [Arg.i 1]] [makeClause ("count(b) > ?") [Arg.i 2]] none

/-- C2 example root: a node with no clauses of its own whose sub-filter was
attached with `not`. -/
def exC2f : filterBuilder := filterBuilder.not filterBuilder.empty exC2sub

/-- First sub-filter attached in the C5 witness. -/
def exC5first : filterBuilder := .mk none ("") [] [makeClause ("x = ?") [Arg.i 1]] [] none

/-- Second sub-filter offered in the C5 witness. -/
def exC5second : filterBuilder := .mk none ("") [] [makeClause ("y = ?") [Arg.i 2]] [] none

/-- C5 witness node: a fresh node with `exC5first` already attached via
`and`. -/
def exC5f : filterBuilder := filterBuilder.and filterBuilder.empty exC5first

/-- Model regexp compiler for the C10 witness: rejects the lone `(`. -/
def exRegexpCompile (s : String) : Option String :=
  if s = "(" then some ("error parsing regexp: missing closing )") else none

/-- C10 witness criterion: an invalid pattern under MATCHES_REGEX. -/
def exC10c : StringCriterionInput := ⟨"(", .MatchesRegex⟩

/-- C6 witness handler wiring: scene-tags membership via a join table. -/
def exC6m : multiCriterionHandlerBuilder :=
  ⟨"scenes", "tags", "scenes_tags", "scene_id", "tag_id", none⟩

/-- C6 witness criterion: EXCLUDES of two tag ids. -/
def exC6c : MultiCriterionInput := ⟨["3", "5"], .Excludes⟩

/-- C1 failing input, the stored gallery record: zip gallery id 1 whose
stored modification time (100) is valid. -/
def exC1gal : GalleryRec := ⟨1, ⟨"g.zip", true⟩, "c1", true, ⟨100, true⟩⟩

/-- C1 failing input: existing zip gallery found by path without error, on-disk
modification time equal to the stored one, and 3 associated image rows in
the catalog. -/
def exC1env : GalleryScanEnv :=
  { filePath := "g.zip", findByPath := some exC1gal, findByPathErr := none,
    imageCountByGalleryID := 3, imageCountErr := none, diskModTime := some 100,
    isDirectory := false, zipChecksum := some ("c1"), findByChecksum := none,
    fileExistsAtFound := false, imagesInZip := 3 }

/-- The gallery-association writes appended by the new-file arm of `scanImage`
after the duplicate / path-migration / create step. -/
def imageGalleryAssocWrites (env : ImageScanEnv) (imageID : Int) : List ImageWrite :=
  match env.zipGalleryID with
  | some gid => [ImageWrite.addToGallery gid imageID]
  | none =>
    if env.createGalleriesFromFolders then
      match env.folderGalleryID with
      | some g => [ImageWrite.addToGallery g imageID]
      | none => [ImageWrite.createFolderGallery env.dirPath,
                 ImageWrite.addToGallery env.createdFolderGalleryID imageID]
    else []

/-- Image record matched by hash in the C3 counterexample. -/
def exC3dupImage : ImageRec := ⟨9, "zip/a.jpg", "h1", ⟨40, true⟩⟩

/-- C3 counterexample environment: an image candidate scanned as part of a
zip gallery (id 5), not found by path, matched by checksum to record 9 whose
stored file still exists on disk (the duplicate case). -/
def exC3zipEnv : ImageScanEnv :=
  { filePath := "zip/b.jpg", findByPath := none, findByPathErr := none,
    diskModTime := some 50, checksumResult := some ("h1"), fileDetailsOk := true,
    isDirectory := false, findByChecksum := some exC3dupImage,
    fileExistsAtFound := true, zipGalleryID := some 5,
    createGalleriesFromFolders := false, folderGalleryID := none,
    createdImageID := 0, createdFolderGalleryID := 0, dirPath := "zip" }

/-- Scene record matched by oshash in the C3 witness. -/
def exC3scene : SceneRec :=
  ⟨21, "old/path.mp4", ⟨"", false⟩, ⟨"os1", true⟩, ⟨"mp4", true⟩, ⟨"1000", true⟩, ⟨60, true⟩⟩

/-- C3 witness scene environment: candidate not found by path, oshash match
to record 21, file at the matched record path gone (the path-migration
case). -/
def exC3senv : SceneScanEnv :=
  { filePath := "new/path.mp4", findByPath := none, findByPathErr := none,
    diskModTime := some 70, calculateMD5 := false, fileNamingAlgorithm := .oshash,
    oshashResult := some ("os1"), checksumResult := none, probeOk := true,
    container := "mp4", videoSize := 1000, isDirectory := false,
    findByChecksum := none, findByOSHash := some exC3scene,
    fileExistsAtFound := false }

/-- Image record matched by checksum in the C3 witness. -/
def exC3image : ImageRec := ⟨31, "old/a.jpg", "h2", ⟨40, true⟩⟩

/-- C3 witness image environment: plain image candidate (no zip gallery, no
folder galleries), not found by path, checksum match to record 31 whose
stored file still exists (the duplicate case). -/
def exC3ienv : ImageScanEnv :=
  { filePath := "new/a.jpg", findByPath := none, findByPathErr := none,
    diskModTime := some 50, checksumResult := some ("h2"), fileDetailsOk := true,
    isDirectory := false, findByChecksum := some exC3image,
    fileExistsAtFound := true, zipGalleryID := none,
    createGalleriesFromFolders := false, folderGalleryID := none,
    createdImageID := 0, createdFolderGalleryID := 0, dirPath := "new" }

/-- Fully-populated scene record for the C4 witness: valid mod time 80,
size, format, oshash and checksum all set. -/
def exC4scene : SceneRec :=
  ⟨41, "s.mp4", ⟨"md5v", true⟩, ⟨"os4", true⟩, ⟨"mp4", true⟩, ⟨"2000", true⟩, ⟨80, true⟩⟩

/-- C4 witness scene environment: the record above found by path, on-disk
modification time equal to the stored one. -/
def exC4senv : SceneScanEnv :=
  { filePath := "s.mp4", findByPath := some exC4scene, findByPathErr := none,
    diskModTime := some 80, calculateMD5 := true, fileNamingAlgorithm := .oshash,
    oshashResult := some ("os4"), checksumResult := some ("md5v"), probeOk := true,
    container := "mp4", videoSize := 2000, isDirectory := false,
    findByChecksum := none, findByOSHash := none, fileExistsAtFound := true }

/-- Image record for the C4 witness: valid mod time 90. -/
def exC4image : ImageRec := ⟨51, "i.jpg", "h4", ⟨90, true⟩⟩

/-- C4 witness image environment: the record above found by path, on-disk
modification time equal to the stored one. -/
def exC4ienv : ImageScanEnv :=
  { filePath := "i.jpg", findByPath := some exC4image, findByPathErr := none,
    diskModTime := some 90, checksumResult := some ("h4"), fileDetailsOk := true,
    isDirectory := false, findByChecksum := none, fileExistsAtFound := true,
    zipGalleryID := none, createGalleriesFromFolders := false,
    folderGalleryID := none, createdImageID := 0, createdFolderGalleryID := 0,
    dirPath := "." }

/-- Joins deduplicated when the same alias is requested at two nodes of a
filter chain, with a third join dropped by the early return: node joins. -/
def exJoinX : join := ⟨"tx", "x", "ox"⟩

/-- A join with alias `a`, requested by the middle node. -/
def exJoinA : join := ⟨"ta", "a", "oa"⟩

/-- A join with the same alias `a`, requested by the innermost node. -/
def exJoinA2 : join := ⟨"ta", "a", "oa2"⟩

/-- Innermost filter node of the C7 example tree. -/
def exC7s2 : filterBuilder := .mk none ("") [exJoinA2] [] [] none

/-- Middle filter node of the C7 example tree. -/
def exC7s1 : filterBuilder := .mk (some exC7s2) andOp [exJoinX, exJoinA] [] [] none

/-- Root filter node of the C7 example tree. -/
def exC7f : filterBuilder := .mk (some exC7s1) andOp [exJoinX] [] [] none

/-- On a duplicate, `joins.add` stops and everything after the duplicate in
the same call is dropped. -/
theorem joinsAdd_stops_after_duplicate (j : List join) (n : join) (ys : List join)
    (h : j.any (fun jj => jj.equals n) = true) :
    joinsAdd j (n :: ys) = j := by
  simp [joinsAdd, h]

/-- Go `joins.add` never appends a join whose alias is already present, so it
preserves distinctness of aliases. -/
theorem joinsAdd_nodup (xs : List join) (j : List join)
    (h : (j.map join.alias).Nodup) : ((joinsAdd j xs).map join.alias).Nodup := by
  induction xs generalizing j with
  | nil => exact h
  | cons n rest ih =>
    by_cases hg : j.any (fun jj => jj.equals n) = true
    · simpa [joinsAdd, hg]
    · have hstep : joinsAdd j (n :: rest) = joinsAdd (j ++ [n]) rest := by
        simp [joinsAdd, hg]
      rw [hstep]
      apply ih
      have hnotin : n.alias ∉ j.map join.alias := by
        intro hmem
        apply hg
        rw [List.any_eq_true]
        obtain ⟨jj, hjj, hal⟩ := List.mem_map.mp hmem
        exact ⟨jj, hjj, by simp [join.equals, hal]⟩
      simp [List.nodup_append, h, hnotin]

/-- C8: when `joins.add` is called with a slice and some join in the slice
duplicates an alias already present (in the receiver, or appended earlier in
the same call), the method returns at that point: every join occurring later
in that same call is not added, even joins whose aliases are not yet
present. -/
theorem C8_joins_add_early_return_drops_later_joins
    (j xs : List join) (n : join) (ys : List join)
    (h : (joinsAdd j xs).any (fun jj => jj.equals n) = true) :
    joinsAdd j (xs ++ n :: ys) = joinsAdd j xs := by
  induction xs generalizing j with
  | nil => simpa [joinsAdd] using joinsAdd_stops_after_duplicate j n ys (by simpa using h)
  | cons x rest ih =>
    by_cases hg : j.any (fun jj => jj.equals x) = true
    · simp [joinsAdd, hg]
    · simp only [List.cons_append, joinsAdd, hg, if_false] at h ⊢
      exact ih (j ++ [x]) h

/-- Witness for C8: receiver holding alias `x`, slice `[a, a, b]`-shaped:
the second `a` hits the duplicate check and the fresh alias `b` join is
dropped. -/
theorem C8_witness :
    ((joinsAdd [exJoinX] [exJoinA]).any (fun jj => jj.equals exJoinA2) = true) ∧
    joinsAdd [exJoinX] ([exJoinA] ++ exJoinA2 :: [⟨"tb", "b", "ob"⟩]) =
      joinsAdd [exJoinX] [exJoinA] :=
  ⟨by decide,
   C8_joins_add_early_return_drops_later_joins [exJoinX] [exJoinA] exJoinA2
     [⟨"tb", "b", "ob"⟩] (by decide)⟩

/-- C7 (amended): the join list produced for SQL emission over the whole
filter tree never holds two joins with the same alias (the alias being the
`as` string, or the table name when `as` is empty). -/
theorem C7_getAllJoins_alias_nodup (f : filterBuilder) :
    ((f.getAllJoins).map join.alias).Nodup := by
  cases f with
  | mk sub o j w h e =>
    have h0 : ((joinsAdd [] j).map join.alias).Nodup := joinsAdd_nodup j [] (by simp)
    cases sub with
    | none => simpa [filterBuilder.getAllJoins] using h0
    | some s =>
      by_cases heq : s.getAllJoins = []
      · simpa [filterBuilder.getAllJoins, heq] using h0
      · simpa [filterBuilder.getAllJoins, heq] using joinsAdd_nodup _ _ h0

/-- Counterexample to C7 as stated: alias `a` is requested by two different
nodes of the tree (the middle node and the innermost node), yet the compiled
join list, and hence the compiled SQL, contains zero joins with alias `a`:
collecting the joins `[x, a]` of the middle node into the `[x]` of the root hits the
duplicate `x` first and returns, dropping `a` entirely, so `a` appears in no
join clause at all (not exactly once, as the claim states). -/
theorem C7_counterexample :
    exC7s1.joins.any (fun jj => jj.alias == "a") = true ∧
    exC7s2.joins.any (fun jj => jj.alias == "a") = true ∧
    ((exC7f.getAllJoins).map join.alias).count ("a") = 0 ∧
    joinsToSQL exC7f.getAllJoins = "LEFT JOIN tx AS x ON ox" := by
  decide

/-- C2 evaluated at the failing input: a node with no clauses of its own and
a NOT sub-filter.  `generateWhereClauses` special-cases the empty left-hand
clause and renders `NOT (...)`, but `generateHavingClauses` writes the
operator unconditionally and renders a leading ` AND NOT (...)`, the
syntactically invalid leading-operator form the claim says both functions
avoid. -/
theorem C2_having_keeps_leading_operator :
    exC2f.generateWhereClauses = ("NOT (a = ?)", [Arg.i 1]) ∧
    exC2f.generateHavingClauses = (" AND NOT (count(b) > ?)", [Arg.i 2]) := by
  exact ⟨rfl, rfl⟩

/-- C5: a first call to `and`/`or`/`not` attaches the sub-filter and sets
the matching operator; a second call on a node that already has a sub-filter
records `errSubFilterAlreadySet` on the node without replacing the first
attachment or its operator, and the attach itself does not fail — the error
surfaces only when the filter is consumed, at `addFilter`/`executeFind`
time. -/
theorem C5_second_attach_errors_and_keeps_first
    (f0 f g s : filterBuilder) (h0 : f0.subFilter = none)
    (hsub : f.subFilter = some s) (herr : f.err = none) :
    ((f0.and g).subFilter = some g ∧ (f0.and g).subFilterOp = andOp) ∧
    ((f0.or g).subFilter = some g ∧ (f0.or g).subFilterOp = orOp) ∧
    ((f0.not g).subFilter = some g ∧ (f0.not g).subFilterOp = notOp) ∧
    ((f.and g).subFilter = some s ∧ (f.and g).subFilterOp = f.subFilterOp ∧
      (f.and g).err = some errSubFilterAlreadySet) ∧
    ((f.or g).subFilter = some s ∧ (f.or g).subFilterOp = f.subFilterOp ∧
      (f.or g).err = some errSubFilterAlreadySet) ∧
    ((f.not g).subFilter = some s ∧ (f.not g).subFilterOp = f.subFilterOp ∧
      (f.not g).err = some errSubFilterAlreadySet) ∧
    queryBuilder.executeFind ((newQuery ("scenes")).addFilter (f.and g)) =
      .failure errSubFilterAlreadySet := by
  cases f0 with
  | mk s0 o0 j0 w0 hv0 e0 =>
    cases f with
    | mk sf oxf jf wf hvf ef =>
      simp only [filterBuilder.subFilter] at h0 hsub
      simp only [filterBuilder.err] at herr
      subst h0
      subst hsub
      subst herr
      simp [filterBuilder.and, filterBuilder.or, filterBuilder.not,
            filterBuilder.setError, filterBuilder.subFilter,
            filterBuilder.subFilterOp, filterBuilder.err,
            queryBuilder.addFilter, filterBuilder.getError, newQuery,
            queryBuilder.executeFind]

/-- Witness for C5 at a concrete node: `exC5f` already carries `exC5first`
attached via `and`; the second attachment attempts are evaluated. -/
theorem C5_witness :
    (filterBuilder.empty.subFilter = none ∧ exC5f.subFilter = some exC5first ∧
      exC5f.err = none) ∧
    (((filterBuilder.empty.and exC5second).subFilter = some exC5second ∧
      (filterBuilder.empty.and exC5second).subFilterOp = andOp) ∧
     ((filterBuilder.empty.or exC5second).subFilter = some exC5second ∧
      (filterBuilder.empty.or exC5second).subFilterOp = orOp) ∧
     ((filterBuilder.empty.not exC5second).subFilter = some exC5second ∧
      (filterBuilder.empty.not exC5second).subFilterOp = notOp) ∧
     ((exC5f.and exC5second).subFilter = some exC5first ∧
      (exC5f.and exC5second).subFilterOp = exC5f.subFilterOp ∧
      (exC5f.and exC5second).err = some errSubFilterAlreadySet) ∧
     ((exC5f.or exC5second).subFilter = some exC5first ∧
      (exC5f.or exC5second).subFilterOp = exC5f.subFilterOp ∧
      (exC5f.or exC5second).err = some errSubFilterAlreadySet) ∧
     ((exC5f.not exC5second).subFilter = some exC5first ∧
      (exC5f.not exC5second).subFilterOp = exC5f.subFilterOp ∧
      (exC5f.not exC5second).err = some errSubFilterAlreadySet) ∧
     queryBuilder.executeFind ((newQuery ("scenes")).addFilter (exC5f.and exC5second)) =
       .failure errSubFilterAlreadySet) :=
  ⟨⟨rfl, rfl, rfl⟩,
   C5_second_attach_errors_and_keeps_first filterBuilder.empty exC5f exC5second
     exC5first rfl rfl rfl⟩

/-- The argument list of `andClauses` is the concatenation of the clause
argument lists in the order the clauses were added. -/
theorem andClauses_snd (input : List sqlClause) :
    (andClauses input).2 = (input.map (fun w => w.args)).flatten := by
  cases input with
  | nil => rfl
  | cons a l => simp [andClauses]

/-- A string of length zero is the empty string. -/
theorem string_eq_empty_of_length_eq_zero (s : String) (h : s.length = 0) : s = "" := by
  cases s with
  | mk data =>
    cases data with
    | nil => rfl
    | cons c cs => simp [String.length] at h

/-- An empty `andClauses` clause text forces an empty input list. -/
theorem andClauses_fst_empty (input : List sqlClause)
    (h : (andClauses input).1 = "") : input = [] := by
  cases input with
  | nil => rfl
  | cons a l =>
    exfalso
    simp only [andClauses] at h
    rw [if_pos (by simp)] at h
    have hlen := congrArg String.length h
    rw [String.length_append, String.length_append, String.length_empty] at hlen
    have h1 : "(".length = 1 := rfl
    have h2 : ")".length = 1 := rfl
    omega

/-- A compiled where clause that is empty carries no arguments. -/
theorem generateWhereClauses_empty_args (f : filterBuilder)
    (h : (f.generateWhereClauses).1 = "") : (f.generateWhereClauses).2 = [] := by
  cases f with
  | mk sub o j w hv e =>
    cases sub with
    | none =>
      simp only [filterBuilder.generateWhereClauses] at h ⊢
      rw [andClauses_fst_empty w h]
      rfl
    | some s =>
      simp only [filterBuilder.generateWhereClauses] at h ⊢
      by_cases hc : (s.generateWhereClauses).1 = ""
      · simp only [hc, ne_eq, not_true_eq_false, if_false] at h ⊢
        rw [andClauses_fst_empty w h]
        rfl
      · exfalso
        simp only [getSubFilterClause, hc, ne_eq, not_false_eq_true, if_true] at h
        apply hc
        have hlen := congrArg String.length h
        rw [String.length_append, String.length_append, String.length_empty] at hlen
        exact string_eq_empty_of_length_eq_zero _ (by omega)

/-- C9: the argument list returned by `generateWhereClauses` is the own
clause arguments of the node, concatenated in the order the clauses were
added, followed by the compiled sub-filter arguments — matching the left-to-right
layout of the clause text. -/
theorem C9_where_args_own_then_sub (f : filterBuilder) :
    (f.generateWhereClauses).2 =
      (f.whereClauses.map (fun w => w.args)).flatten ++
        (match f.subFilter with
         | some s => (s.generateWhereClauses).2
         | none => []) := by
  cases f with
  | mk sub o j w hv e =>
    cases sub with
    | none =>
      simp [filterBuilder.generateWhereClauses, filterBuilder.whereClauses,
            filterBuilder.subFilter, andClauses_snd]
    | some s =>
      simp only [filterBuilder.generateWhereClauses, filterBuilder.whereClauses,
                 filterBuilder.subFilter]
      by_cases hc : (s.generateWhereClauses).1 = ""
      · have ha := generateWhereClauses_empty_args s hc
        simp [hc, ha, andClauses_snd]
      · by_cases hl : (s.generateWhereClauses).2.length > 0
        · simp [hc, hl, andClauses_snd]
        · have hnil : (s.generateWhereClauses).2 = [] := by
            cases hx : (s.generateWhereClauses).2 with
            | nil => rfl
            | cons a l => rw [hx] at hl; simp at hl
          simp [hc, hl, hnil, andClauses_snd]

/-- Go `addWhere` with non-empty SQL appends exactly one clause and leaves the
having clauses alone. -/
theorem addWhere_fields (f : filterBuilder) (sql : String) (args : List Arg)
    (h : ¬ sql = "") :
    (f.addWhere sql args).whereClauses = f.whereClauses ++ [makeClause sql args] ∧
    (f.addWhere sql args).havingClauses = f.havingClauses := by
  cases f with
  | mk s o j w hv e =>
    simp [filterBuilder.addWhere, h, filterBuilder.whereClauses, filterBuilder.havingClauses]

/-- Go `addHaving` with empty SQL is a no-op. -/
theorem addHaving_empty_sql (f : filterBuilder) (args : List Arg) :
    f.addHaving ("") args = f := by
  simp [filterBuilder.addHaving]

/-- C6: for a multi-value criterion with the EXCLUDES modifier, the
compiled WHERE clause is the NOT EXISTS correlated-subquery form (in both
the join-table and primary-table variants it begins `not exists (select `),
there is no having clause, and the handler emits exactly that clause with
the criterion ids as its arguments — never a plain NOT IN over the
association column. -/
theorem C6_excludes_not_exists (m : multiCriterionHandlerBuilder)
    (c : MultiCriterionInput) (f : filterBuilder)
    (hmod : c.modifier = .Excludes) (hv : c.value ≠ []) (hj : m.addJoinsFunc = none) :
    (∃ rest, (getMultiCriterionClause m.primaryTable m.foreignTable m.joinTable
        m.primaryFK m.foreignFK c).1 = "not exists (select " ++ rest) ∧
    (getMultiCriterionClause m.primaryTable m.foreignTable m.joinTable
        m.primaryFK m.foreignFK c).2 = "" ∧
    (m.handler (some c) f).whereClauses =
      f.whereClauses ++ [makeClause (getMultiCriterionClause m.primaryTable
        m.foreignTable m.joinTable m.primaryFK m.foreignFK c).1 (c.value.map Arg.s)] ∧
    (m.handler (some c) f).havingClauses = f.havingClauses := by
  have hlit : ("not exists (select s.id from " : String) =
      "not exists (select " ++ "s.id from " := rfl
  have hex : ∃ rest, (getMultiCriterionClause m.primaryTable m.foreignTable m.joinTable
      m.primaryFK m.foreignFK c).1 = "not exists (select " ++ rest := by
    simp only [getMultiCriterionClause, hmod]
    by_cases hjt : m.joinTable = ""
    · refine ⟨"s.id from " ++ (m.primaryTable ++ (" as s where s.id = " ++
        (m.primaryTable ++ (".id and s." ++ (m.foreignFK ++ (" in " ++
        (getInBinding c.value.length ++ ")"))))))), ?_⟩
      simp [hjt, String.append_assoc]
      rw [hlit, String.append_assoc]
    · refine ⟨m.joinTable ++ ("." ++ (m.primaryFK ++ (" from " ++ (m.joinTable ++
        (" where " ++ (m.joinTable ++ ("." ++ (m.primaryFK ++ (" = " ++
        (m.primaryTable ++ (".id and " ++ (m.joinTable ++ ("." ++ (m.foreignFK ++
        (" in " ++ (getInBinding c.value.length ++ ")")))))))))))))))), ?_⟩
      simp [hjt, String.append_assoc]
  have hsnd : (getMultiCriterionClause m.primaryTable m.foreignTable m.joinTable
      m.primaryFK m.foreignFK c).2 = "" := by
    simp only [getMultiCriterionClause, hmod]
    by_cases hjt : m.joinTable = "" <;> simp [hjt]
  have hlen : ¬ (getMultiCriterionClause m.primaryTable m.foreignTable m.joinTable
      m.primaryFK m.foreignFK c).1 = "" := by
    obtain ⟨rest, hr⟩ := hex
    intro h0
    rw [hr] at h0
    have hl := congrArg String.length h0
    rw [String.length_append, String.length_empty] at hl
    have h19 : ("not exists (select " : String).length = 19 := rfl
    omega
  refine ⟨hex, hsnd, ?_, ?_⟩
  · simp only [multiCriterionHandlerBuilder.handler, hj]
    rw [if_pos (List.length_pos.mpr hv)]
    rw [hsnd, addHaving_empty_sql]
    exact (addWhere_fields f _ _ hlen).1
  · simp only [multiCriterionHandlerBuilder.handler, hj]
    rw [if_pos (List.length_pos.mpr hv)]
    rw [hsnd, addHaving_empty_sql]
    exact (addWhere_fields f _ _ hlen).2

/-- Witness for C6 at the scene-tags wiring with ids 3 and 5: the compiled
clause is the full correlated subquery over the join table. -/
theorem C6_witness :
    (exC6c.modifier = .Excludes ∧ exC6c.value ≠ [] ∧ exC6m.addJoinsFunc = none) ∧
    (exC6m.handler (some exC6c) filterBuilder.empty).havingClauses = [] ∧
    (exC6m.handler (some exC6c) filterBuilder.empty).whereClauses =
      [makeClause ("not exists (select scenes_tags.scene_id from scenes_tags where scenes_tags.scene_id = scenes.id and scenes_tags.tag_id in (?, ?))")
        [Arg.s ("3"), Arg.s ("5")]] := by
  have h := C6_excludes_not_exists exC6m exC6c filterBuilder.empty rfl (by decide) rfl
  refine ⟨⟨rfl, by decide, rfl⟩, ?_, ?_⟩
  · exact h.2.2.2
  · rw [h.2.2.1]
    decide

/-- A filter whose accumulated error is set poisons the query builder:
`executeFind` returns the error and no SQL is assembled or run. -/
theorem executeFind_addFilter_error (qb : queryBuilder) (f : filterBuilder) (e : String)
    (h : f.getError = some e) : (qb.addFilter f).executeFind = .failure e := by
  simp [queryBuilder.addFilter, h, queryBuilder.executeFind]

/-- C10: a string criterion under MATCHES_REGEX / NOT_MATCHES_REGEX whose
value fails regexp compilation records the compile error on the builder and
emits no clause and no arguments; a query consuming the filter returns that
error from `executeFind` and runs no SQL. -/
theorem C10_invalid_regex_errors_no_clause
    (regexpCompile : String → Option String) (c : StringCriterionInput)
    (column : String) (f : filterBuilder) (e : String)
    (hmod : c.modifier = .MatchesRegex ∨ c.modifier = .NotMatchesRegex)
    (hcomp : regexpCompile c.value = some e) (herr : f.err = none) :
    (stringCriterionHandler regexpCompile (some c) column f).whereClauses = f.whereClauses ∧
    (stringCriterionHandler regexpCompile (some c) column f).havingClauses = f.havingClauses ∧
    (stringCriterionHandler regexpCompile (some c) column f).err = some e ∧
    queryBuilder.executeFind ((newQuery ("scenes")).addFilter
        (stringCriterionHandler regexpCompile (some c) column f)) =
      .failure e := by
  cases f with
  | mk sf oxf jf wf hf ef =>
    simp only [filterBuilder.err] at herr
    subst herr
    have hhandler : stringCriterionHandler regexpCompile (some c) column
        (.mk sf oxf jf wf hf none) = .mk sf oxf jf wf hf (some e) := by
      rcases hmod with h | h <;>
        simp [stringCriterionHandler, CriterionModifier.isValid, h, hcomp,
              filterBuilder.setError]
    rw [hhandler]
    refine ⟨rfl, rfl, rfl, ?_⟩
    exact executeFind_addFilter_error _ _ _
      (by rw [filterBuilder.getError.eq_def]; simp)

/-- Witness for C10 at the invalid pattern `(` under MATCHES_REGEX. -/
theorem C10_witness :
    ((exC10c.modifier = .MatchesRegex ∨ exC10c.modifier = .NotMatchesRegex) ∧
     exRegexpCompile exC10c.value = some ("error parsing regexp: missing closing )") ∧
     filterBuilder.empty.err = none) ∧
    ((stringCriterionHandler exRegexpCompile (some exC10c) ("title") filterBuilder.empty).whereClauses =
        filterBuilder.empty.whereClauses ∧
     (stringCriterionHandler exRegexpCompile (some exC10c) ("title") filterBuilder.empty).havingClauses =
        filterBuilder.empty.havingClauses ∧
     (stringCriterionHandler exRegexpCompile (some exC10c) ("title") filterBuilder.empty).err =
        some ("error parsing regexp: missing closing )") ∧
     queryBuilder.executeFind ((newQuery ("scenes")).addFilter
        (stringCriterionHandler exRegexpCompile (some exC10c) ("title") filterBuilder.empty)) =
        .failure ("error parsing regexp: missing closing )")) :=
  ⟨⟨Or.inl rfl, rfl, rfl⟩,
   C10_invalid_regex_errors_no_clause exRegexpCompile exC10c ("title")
     filterBuilder.empty ("error parsing regexp: missing closing )")
     (Or.inl rfl) rfl rfl⟩

/-- C1 evaluated at the failing input: an existing zip gallery whose stored
modification time equals the on-disk one and which has 3 associated image
rows.  The pass opens no write transaction, but it re-scans the zip
contents (`scannedZip`) instead of only regenerating thumbnails, because
the read transaction only issues the image-count query when the path lookup
returned a non-nil error, so `images` stays 0 and `scanImages` is forced
true for every existing gallery. -/
theorem C1_unchanged_gallery_with_images_still_rescans :
    exC1env.imageCountByGalleryID = 3 ∧
    exC1env.diskModTime = some exC1gal.fileModTime.timestamp ∧
    scanGallery exC1env = ([], .scannedZip) :=
  ⟨rfl, rfl, rfl⟩

/-- Counterexample to C3 as stated: an image candidate scanned as part of a
zip gallery, matched by checksum to a record whose stored file still exists
(the duplicate case).  The claim says the scan performs no write, but the
pass still opens the gallery-association write transaction, adding the
matched image to the zip gallery. -/
theorem C3_counterexample :
    exC3zipEnv.findByPath = none ∧
    exC3zipEnv.findByChecksum = some exC3dupImage ∧
    exC3zipEnv.fileExistsAtFound = true ∧
    (scanImage exC3zipEnv).1 = [ImageWrite.addToGallery 5 9] :=
  ⟨rfl, rfl, rfl, rfl⟩

/-- C3 (amended): for a candidate with no record at its path whose computed
hash matches an existing record, the record-level action is exactly as
claimed — no write when the stored file of the matched record still
exists, otherwise a single update carrying only the id and the new path —
and no new record is created, for both scenes and images; an image
candidate additionally gets the gallery-association writes (zip gallery or
folder gallery) appended in either case. -/
theorem C3_hash_match_migrates_path_only
    (env : SceneScanEnv) (m : SceneRec) (ienv : ImageScanEnv) (mi : ImageRec)
    (t ti : Int) (os cs csi : String)
    (h1 : env.findByPath = none) (h2 : env.findByPathErr = none)
    (h3 : env.diskModTime = some t) (h4 : env.isDirectory = false)
    (h5 : env.probeOk = true) (h6 : env.oshashResult = some os)
    (h7 : (if env.fileNamingAlgorithm = .md5 ∨ env.calculateMD5 then env.checksumResult
           else some ("")) = some cs)
    (h8 : sceneHashLookup env cs = some m)
    (hi1 : ienv.findByPath = none) (hi2 : ienv.findByPathErr = none)
    (hi3 : ienv.diskModTime = some ti) (hi4 : ienv.isDirectory = false)
    (hi5 : ienv.checksumResult = some csi) (hi6 : ienv.findByChecksum = some mi) :
    scanScene env = (if env.fileExistsAtFound then []
                     else [SceneWrite.updatePath m.id env.filePath], .completed false) ∧
    scanImage ienv = ((if ienv.fileExistsAtFound then []
                       else [ImageWrite.updatePath mi.id ienv.filePath]) ++
                        imageGalleryAssocWrites ienv mi.id, .completed false) := by
  constructor
  · simp only [scanScene, h1, h2, h3, h4, h5, h6, h7, h8, ne_eq, not_false_eq_true,
               not_true_eq_false, if_false, if_true, Bool.false_eq_true,
               Bool.not_false, Bool.not_true, ite_false, ite_true]
    by_cases hf : env.fileExistsAtFound = true <;> simp [hf]
  · simp only [scanImage, hi1, hi2, hi3, hi4, hi5, hi6, ne_eq, not_false_eq_true,
               not_true_eq_false, if_false, if_true, Bool.false_eq_true,
               Bool.not_false, Bool.not_true, ite_false, ite_true,
               imageGalleryAssocWrites]
    by_cases hf : ienv.fileExistsAtFound = true <;>
      cases hz : ienv.zipGalleryID <;>
        by_cases hcg : ienv.createGalleriesFromFolders = true <;>
          cases hfg : ienv.folderGalleryID <;>
            simp [hf, hz, hcg, hfg]

/-- Witness for C3 at concrete environments: an oshash-matched scene whose
old file is gone (path migrated, one id+path update) and a checksum-matched
plain image whose old file still exists (duplicate, no write at all). -/
theorem C3_witness :
    (exC3senv.findByPath = none ∧ exC3senv.findByPathErr = none ∧
     exC3senv.diskModTime = some 70 ∧ exC3senv.isDirectory = false ∧
     exC3senv.probeOk = true ∧ exC3senv.oshashResult = some ("os1") ∧
     (if exC3senv.fileNamingAlgorithm = .md5 ∨ exC3senv.calculateMD5 then
        exC3senv.checksumResult else some ("")) = some ("") ∧
     sceneHashLookup exC3senv ("") = some exC3scene ∧
     exC3ienv.findByPath = none ∧ exC3ienv.findByPathErr = none ∧
     exC3ienv.diskModTime = some 50 ∧ exC3ienv.isDirectory = false ∧
     exC3ienv.checksumResult = some ("h2") ∧ exC3ienv.findByChecksum = some exC3image) ∧
    scanScene exC3senv = (if exC3senv.fileExistsAtFound then []
                          else [SceneWrite.updatePath exC3scene.id exC3senv.filePath],
                          .completed false) ∧
    scanImage exC3ienv = ((if exC3ienv.fileExistsAtFound then []
                           else [ImageWrite.updatePath exC3image.id exC3ienv.filePath]) ++
                            imageGalleryAssocWrites exC3ienv exC3image.id,
                          .completed false) :=
  ⟨⟨rfl, rfl, rfl, rfl, rfl, rfl, by decide, by decide, rfl, rfl, rfl, rfl, rfl, rfl⟩,
   C3_hash_match_migrates_path_only exC3senv exC3scene exC3ienv exC3image 70 50
     ("os1") ("") ("h2") rfl rfl rfl rfl rfl rfl (by decide) (by decide)
     rfl rfl rfl rfl rfl rfl⟩

/-- C4: reconciliation is idempotent on an unchanged file — when the record
exists with a valid stored modification time equal to the on-disk one, a
valid size, and format, oshash and checksum already populated, the second
pass opens zero write transactions, for both scenes and images. -/
theorem C4_unchanged_file_second_pass_no_writes
    (env : SceneScanEnv) (s : SceneRec) (ienv : ImageScanEnv) (i : ImageRec) (t ti : Int)
    (hs : env.findByPath = some s) (hse : env.findByPathErr = none)
    (hst : env.diskModTime = some t) (hmt : s.fileModTime = ⟨t, true⟩)
    (hsz : s.size.valid = true) (hfm : s.format.valid = true)
    (hos : s.oshash.valid = true) (hck : s.checksum.valid = true)
    (hi : ienv.findByPath = some i) (hie : ienv.findByPathErr = none)
    (hit : ienv.diskModTime = some ti) (hifm : i.fileModTime = ⟨ti, true⟩) :
    scanScene env = ([], .completed false) ∧ scanImage ienv = ([], .completed false) := by
  constructor
  · simp [scanScene, hs, hse, hst, scanSceneExisting, hmt, hsz, hfm, hos, hck,
          isFileModified]
  · simp [scanImage, hi, hie, hit, hifm, isFileModified]

/-- Witness for C4 at concrete fully-populated records with matching
modification times. -/
theorem C4_witness :
    (exC4senv.findByPath = some exC4scene ∧ exC4senv.findByPathErr = none ∧
     exC4senv.diskModTime = some 80 ∧ exC4scene.fileModTime = ⟨80, true⟩ ∧
     exC4scene.size.valid = true ∧ exC4scene.format.valid = true ∧
     exC4scene.oshash.valid = true ∧ exC4scene.checksum.valid = true ∧
     exC4ienv.findByPath = some exC4image ∧ exC4ienv.findByPathErr = none ∧
     exC4ienv.diskModTime = some 90 ∧ exC4image.fileModTime = ⟨90, true⟩) ∧
    scanScene exC4senv = ([], .completed false) ∧
    scanImage exC4ienv = ([], .completed false) :=
  ⟨⟨rfl, rfl, rfl, rfl, rfl, rfl, rfl, rfl, rfl, rfl, rfl, rfl⟩,
   C4_unchanged_file_second_pass_no_writes exC4senv exC4scene exC4ienv exC4image 80 90
     rfl rfl rfl rfl rfl rfl rfl rfl rfl rfl rfl rfl⟩
